import Mathlib

/-
  Shallow embedding of the pymai execution/context core
  (src/mai/types/context.py, src/mai/layers/module.py,
   src/mai/layers/composite.py), with theorems checking the
  natural-language specification against it.

  Python values appearing in kwargs dictionaries are embedded as `Val`;
  times (time.monotonic()) are rationals; dictionaries are ordered
  association lists mirroring Python dict insertion-order semantics.
-/

namespace PyMai

/-- Embedded Python values: the ones the context/kwargs machinery can see.
A Context object is embedded structurally in the `vctx` constructor
(deadline, metadata, retry_count, step_id, span). -/
inductive Val where
  | vnone : Val
  | vint : Int → Val
  | vrat : Rat → Val
  | vstr : String → Val
  | vbool : Bool → Val
  | vtup : List Val → Val
  | vlist : List Val → Val
  | vdict : List (String × Val) → Val
  | vctx : Option Rat → List (String × Val) → Int → String → Option Val → Val

/-- Ordered string-keyed dictionary, as Python dicts (insertion order). -/
abbrev Dict := List (String × Val)

/-- The Context data model (src/mai/types/context.py, class Context):
deadline, metadata, retry_count, step_id, span. -/
structure Ctx where
  deadline : Option Rat
  metadata : Dict
  retry_count : Int
  step_id : String
  span : Option Val

/-- Context embedded as a Python value. -/
def Ctx.toVal (c : Ctx) : Val :=
  .vctx c.deadline c.metadata c.retry_count c.step_id c.span

/-- A freshly constructed default Context();  `fresh` stands for the
uuid4 hex generated for step_id. -/
def defaultCtx (fresh : String) : Ctx :=
  ⟨none, [], 0, fresh, none⟩

/-- Python `d.get(key)` on an ordered dict. -/
def dlookup : Dict → String → Option Val
  | [], _ => none
  | (k, v) :: rest, key => if k = key then some v else dlookup rest key

/-- Python `key in d`. -/
def dcontains (d : Dict) (key : String) : Bool :=
  (dlookup d key).isSome

/-- Python `d.pop(key, None)`: the popped value and the remaining dict. -/
def dpop : Dict → String → Option Val × Dict
  | [], _ => (none, [])
  | (k, v) :: rest, key =>
    if k = key then (some v, rest)
    else
      let r := dpop rest key
      (r.1, (k, v) :: r.2)

/-- Python `d[key] = val`: overwrite in place keeps the key position,
a new key is appended. -/
def dsetKey : Dict → String → Val → Dict
  | [], key, val => [(key, val)]
  | (k, v) :: rest, key, val =>
    if k = key then (key, val) :: rest else (k, v) :: dsetKey rest key val

/-- Python `d.update(m)` (also the effect of building a merged dict
with unpacking: entries of `m` win on collision, positions of existing
keys are kept). -/
def dUpdate (d : Dict) (m : Dict) : Dict :=
  m.foldl (fun acc kv => dsetKey acc kv.1 kv.2) d

/-- Python `k.startswith("_")`: the first character is an underscore. -/
def startsUnderscore (s : String) : Bool :=
  match s.data with
  | [] => false
  | c :: _ => c = '_'

/-- Errors raised by the embedded code. `userError` stands for a
domain exception raised by a user forward (e.g. ValueError in tests). -/
inductive PyErr where
  | typeError : String → PyErr
  | valueError : String → PyErr
  | notImplErr : PyErr
  | userError : String → PyErr
deriving DecidableEq

/-- Python abs on rationals. -/
def pyAbs (q : Rat) : Rat := if q < 0 then -q else q

/-- The 10-year heuristic threshold of _is_wall_clock_time, in seconds. -/
def wallThreshold : Rat := 10 * (365 * 24 * 60 * 60)

/-- Embeds _is_wall_clock_time (src/mai/types/context.py):
`abs(t - time.monotonic()) > threshold`, with `now` the current
monotonic time. -/
def _is_wall_clock_time (now t : Rat) : Bool :=
  decide (wallThreshold < pyAbs (t - now))

/-- Embeds the pydantic field validator validate_deadline:
a non-None deadline that looks like wall-clock time is rejected. -/
def validate_deadline (now : Rat) : Option Rat → Except PyErr (Option Rat)
  | none => .ok none
  | some t =>
    if _is_wall_clock_time now t then
      .error (.valueError "deadline must be monotonic time")
    else .ok (some t)

/-- Pydantic coercion of a supplied deadline field value. -/
def coerceDeadline : Val → Except PyErr (Option Rat)
  | .vnone => .ok none
  | .vrat q => .ok (some q)
  | .vint n => .ok (some (n : Rat))
  | _ => .error (.valueError "deadline field validation")

/-- Pydantic coercion of a supplied metadata field value. -/
def coerceMetadata : Val → Except PyErr Dict
  | .vdict d => .ok d
  | _ => .error (.valueError "metadata field validation")

/-- Pydantic coercion of a supplied retry_count field value. -/
def coerceRetry : Val → Except PyErr Int
  | .vint n => .ok n
  | _ => .error (.valueError "retry_count field validation")

/-- Pydantic coercion of a supplied step_id field value. -/
def coerceStep : Val → Except PyErr String
  | .vstr s => .ok s
  | _ => .error (.valueError "step_id field validation")

/-- Pydantic coercion of a supplied span field value (Any, None allowed). -/
def coerceSpan : Val → Option Val
  | .vnone => none
  | v => some v

/-- Embeds `ctx.model_validate(ctx_kwargs)` where
`ctx_kwargs = ctx.model_dump(); ctx_kwargs.update(src)`: each declared
field takes the value from `src` when present (coerced), else the base
Context's value; extra keys are ignored (model_config extra="ignore"),
and the deadline validator runs. -/
def model_validate (now : Rat) (base : Ctx) (src : Dict) : Except PyErr Ctx :=
  match (match dlookup src "deadline" with
         | some v => coerceDeadline v
         | none => .ok base.deadline) with
  | .error e => .error e
  | .ok d0 =>
    match validate_deadline now d0 with
    | .error e => .error e
    | .ok d =>
      match (match dlookup src "metadata" with
             | some v => coerceMetadata v
             | none => .ok base.metadata) with
      | .error e => .error e
      | .ok m =>
        match (match dlookup src "retry_count" with
               | some v => coerceRetry v
               | none => .ok base.retry_count) with
        | .error e => .error e
        | .ok rc =>
          match (match dlookup src "step_id" with
                 | some v => coerceStep v
                 | none => .ok base.step_id) with
          | .error e => .error e
          | .ok sid =>
            .ok ⟨d, m, rc, sid,
                 match dlookup src "span" with
                 | some v => coerceSpan v
                 | none => base.span⟩

/-- Embeds `ctx.deadline = time.monotonic() + timeout` for a popped
timeout value (the walrus step of from_kwargs); assignment does not
re-run the validator (validate_assignment is off). -/
def timeoutStep (now : Rat) (c : Ctx) : Option Val → Except PyErr Ctx
  | none => .ok c
  | some .vnone => .ok c
  | some (.vrat q) => .ok { c with deadline := some (now + q) }
  | some (.vint n) => .ok { c with deadline := some (now + (n : Rat)) }
  | some _ => .error (.typeError "unsupported operand for monotonic + timeout")

/-- The declared Context field names, in declaration order
(Context.model_fields.keys()). -/
def ctxFieldNames : List String :=
  ["deadline", "metadata", "retry_count", "step_id", "span"]

/-- Result of Context.from_kwargs: the built Context and the
caller-supplied source dict after in-place mutation (none when the
source was None). -/
structure FKRes where
  ctx : Ctx
  src : Option Dict

/-- Embeds Context.from_kwargs (src/mai/types/context.py).
The source is an Option Val: none for Python None, `vdict` for a
dict, anything else a non-mapping. `now` is time.monotonic(), `fresh`
the uuid4 hex for any default Context constructed here. -/
def from_kwargs (now : Rat) (fresh : String) (src0 : Option Val) : Except PyErr FKRes :=
  match src0 with
  | none => .ok ⟨defaultCtx fresh, none⟩
  | some (.vdict src) =>
    if dcontains src "deadline" && dcontains src "timeout" then
      .error (.valueError "deadline and timeout cannot be set at the same time")
    else
      let p := dpop src "ctx"
      let src1 := p.2
      match (match p.1 with
             | none => Except.ok (defaultCtx fresh)
             | some .vnone => Except.ok (defaultCtx fresh)
             | some (.vctx d m rc sid sp) => Except.ok (⟨d, m, rc, sid, sp⟩ : Ctx)
             | some _ => Except.error (PyErr.typeError "ctx must be a Context object")) with
      | .error e => .error e
      | .ok base =>
        match model_validate now base src1 with
        | .error e => .error e
        | .ok ctx1 =>
          let src2 := ctxFieldNames.foldl (fun s k => (dpop s k).2) src1
          let q := dpop src2 "timeout"
          match timeoutStep now ctx1 q.1 with
          | .error e => .error e
          | .ok ctx2 =>
            let meta := q.2.filter (fun kv => !startsUnderscore kv.1)
            let ctx3 := { ctx2 with metadata := dUpdate ctx2.metadata meta }
            let src4 := meta.foldl (fun s kv => (dpop s kv.1).2) q.2
            .ok ⟨ctx3, some src4⟩
  | some _ => .error (.typeError "from_kwargs expects a dict or None")

/-- Embeds direct Context construction (pydantic __init__ with the
deadline field validator). -/
def Context_init (now : Rat) (deadline : Option Rat) (metadata : Dict)
    (retry_count : Int) (step_id : String) (span : Option Val) : Except PyErr Ctx :=
  match validate_deadline now deadline with
  | .error e => .error e
  | .ok d => .ok ⟨d, metadata, retry_count, step_id, span⟩

/-
  Ambient-context machinery: the ContextVar __current_ctx, tokens,
  Context.set / Context.reset / Context.get, and the context-manager
  protocol (__enter__ / __exit__ with the per-instance _token slot).
-/

/-- A contextvars Token: records the value the variable held before the
corresponding set (none = the variable was unset). -/
structure Tok where
  old : Option Ctx

/-- ContextVar.set: installs the value, returns the restoration token. -/
def cv_set (st : Option Ctx) (c : Ctx) : Option Ctx × Tok :=
  (some c, ⟨st⟩)

/-- ContextVar.reset: restores the value stored in the token. -/
def cv_reset (_ : Option Ctx) (t : Tok) : Option Ctx :=
  t.old

/-- Embeds Context.get / Context.current: the ambient Context, lazily
creating and installing a default one when the variable is unset. -/
def ctx_get (fresh : String) (st : Option Ctx) : Ctx × Option Ctx :=
  match st with
  | some c => (c, some c)
  | none => (defaultCtx fresh, some (defaultCtx fresh))

/-- Embeds classmethod Context.set(**kwargs): builds a Context via
from_kwargs from a fresh dict (the **kwargs copy) and installs it;
the mutated copy is discarded, so the caller-side dict is untouched. -/
def Context_set (now : Rat) (fresh : String) (st : Option Ctx) (kwargs : Dict) :
    Except PyErr (Option Ctx × Tok) :=
  match from_kwargs now fresh (some (.vdict kwargs)) with
  | .error e => .error e
  | .ok r => .ok (cv_set st r.ctx)

/-- Embeds Context.__enter__: `self._token = self.__current_ctx.set(self)`.
The pair is (new variable state, new per-instance _token slot). -/
def ctx_enter (c : Ctx) (st : Option Ctx) (_tok : Option Tok) : Option Ctx × Option Tok :=
  let p := cv_set st c
  (p.1, some p.2)

/-- Embeds Context.__exit__: reset to the stored token when one is
present, then clear the _token slot. -/
def ctx_exit (st : Option Ctx) (tok : Option Tok) : Option Ctx × Option Tok :=
  match tok with
  | some t => (cv_reset st t, none)
  | none => (st, none)

/-- Embeds `with c: body` for a Context instance with _token slot `tok0`:
enter, run the body (which may fail and may itself move the ambient
state), then always run __exit__ — Python guarantees it on every exit
path, normal or raising. Returns (body outcome, final state, final
_token slot). -/
def withScope (c : Ctx) (tok0 : Option Tok) (st : Option Ctx)
    (body : Option Ctx → Except PyErr Val × Option Ctx) :
    Except PyErr Val × Option Ctx × Option Tok :=
  let p := ctx_enter c st tok0
  let r := body p.1
  let q := ctx_exit r.2 p.2
  (r.1, q.1, q.2)

/-
  Module.__call__ (src/mai/layers/module.py): merge static_cfg under
  the call-time kwargs, Context.set on the merged mapping (which
  receives a copy, so the merged mapping stays intact), dispatch on
  whether forward is a coroutine function (a static property, per
  inspect.iscoroutinefunction), and reset in a finally block.  An
  async forward is awaited as fn(*args, **kwargs); a sync forward goes
  through anyio.to_thread.run_sync(fn, *args, **kwargs), whose own
  signature accepts only its keyword-only options — any other keyword
  argument raises TypeError and is never forwarded to fn, which is
  only ever called as fn(*args).  A forward is embedded as a pure
  function of (args, kwargs, ambient variable state);
  Context.current() inside it reads that state (anyio copies the
  context into the worker thread).
-/

/-- Behavior of a forward implementation. -/
abbrev Forward := List Val → Dict → Option Ctx → Except PyErr Val

/-- The keyword-only option names anyio.to_thread.run_sync itself
accepts (3.x: cancellable, limiter; 4.x: abandon_on_cancel, limiter,
with cancellable a deprecated alias). -/
def isRunSyncOption (k : String) : Bool :=
  k = "abandon_on_cancel" || k = "cancellable" || k = "limiter"

/-- Embeds `await anyio.to_thread.run_sync(fn, *args, **kwargs)`:
keyword arguments matching run_sync's own options are consumed by
run_sync; any other keyword argument raises TypeError; fn itself is
invoked with the positional arguments only and no keyword mapping. -/
def to_thread_run_sync (fwd : Forward) (args : List Val) (kwargs : Dict)
    (st : Option Ctx) : Except PyErr Val :=
  if kwargs.all (fun kv => isRunSyncOption kv.1) then
    fwd args [] st
  else
    .error (.typeError "run_sync got an unexpected keyword argument")

/-- Embeds Module.__call__ for a module with the given static_cfg and
forward, with isAsync the result of inspect.iscoroutinefunction on the
unwrapped forward.  Returns the call outcome and the ambient variable
state after the call (the finally-reset, which also runs when run_sync
raises inside the try).  When from_kwargs fails, the variable was
never set, so the state is unchanged. -/
def Module_call (now : Rat) (fresh : String) (st : Option Ctx)
    (static_cfg : Dict) (isAsync : Bool) (fwd : Forward) (args : List Val)
    (kwargs : Dict) : Except PyErr Val × Option Ctx :=
  let merged := dUpdate static_cfg kwargs
  match from_kwargs now fresh (some (.vdict merged)) with
  | .error e => (.error e, st)
  | .ok r =>
    let p := cv_set st r.ctx
    let out :=
      if isAsync then fwd args merged p.1
      else to_thread_run_sync fwd args merged p.1
    (out, cv_reset p.1 p.2)

/-- A forward like the test suite's ContextAwareModule: multiplies its
input by current().metadata["multiplier"] when present, else returns
the input unchanged. -/
def contextAwareForward : Forward :=
  fun args _ st =>
    match args with
    | [.vint x] =>
      match dlookup (ctx_get "g" st).1.metadata "multiplier" with
      | some (.vint m) => .ok (.vint (x * m))
      | _ => .ok (.vint x)
    | _ => .error (.typeError "bad args")

/-- An ambient Context holding metadata multiplier = 3 (what
`with Context.with_(multiplier=3)` installs). -/
def ambientMul3 : Ctx :=
  ⟨none, [("multiplier", .vint 3)], 0, "s0", none⟩

/-- A probe forward that reports exactly what it was invoked with:
its positional args, its keyword mapping, and the ambient Context. -/
def probeForward : Forward :=
  fun args kw st =>
    .ok (.vtup [.vtup args, .vdict kw, (ctx_get "g" st).1.toVal])

/-
  Composite combinators (src/mai/layers/composite.py).  Children are
  embedded by their call behavior (args, kwargs) -> result; each child
  call restores the ambient state on exit (Module_call above), so the
  combinators' data flow is a pure function of the behaviors.
-/

/-- Call behavior of a child module. -/
abbrev Child := List Val → Dict → Except PyErr Val

/-- Sequential.forward loop: `result` starts as the args tuple; a tuple
result is unpacked as the next child's positional args, any other
result is passed as the single positional arg; kwargs go to every
child; the final result is returned; a child error propagates at once
(Except.bind). -/
def Sequential_go (kwargs : Dict) : List Child → Val → Except PyErr Val
  | [], r => .ok r
  | m :: ms, r =>
    match r with
    | .vtup xs =>
      match m xs kwargs with
      | .error e => .error e
      | .ok r2 => Sequential_go kwargs ms r2
    | _ =>
      match m [r] kwargs with
      | .error e => .error e
      | .ok r2 => Sequential_go kwargs ms r2

/-- Embeds Sequential.forward. -/
def Sequential_forward (mods : List Child) (args : List Val) (kwargs : Dict) :
    Except PyErr Val :=
  Sequential_go kwargs mods (.vtup args)

/-- A child multiplying its first positional argument by m
(the test suites' SimpleModule(m)). -/
def mulChild (m : Int) : Child :=
  fun args _ =>
    match args with
    | (.vint x) :: _ => .ok (.vint (x * m))
    | _ => .error (.typeError "bad args")

/-- A child that always fails with e (ErrorModule). -/
def failChild (e : PyErr) : Child :=
  fun _ _ => .error e

/-- A child that reports its positional args as a tuple. -/
def argsProbeChild : Child :=
  fun args _ => .ok (.vtup args)

/-- A child returning the fixed pair (2, 3) as a tuple. -/
def pairChild : Child :=
  fun _ _ => .ok (.vtup [.vint 2, .vint 3])

/-- A child returning a two-element list (ordered, but not a tuple). -/
def listChild : Child :=
  fun _ _ => .ok (.vlist [.vint 2, .vint 3])

/-- A child summing its integer positional args (AggregatorModule). -/
def sumChild : Child :=
  fun args _ =>
    .ok (.vint (args.foldl (fun acc v => match v with | .vint x => acc + x | _ => acc) 0))

/-- A child returning the count of its positional args. -/
def arityChild : Child :=
  fun args _ => .ok (.vint args.length)

/-- A child returning the value under key k of its keyword mapping. -/
def kwReadChild (k : String) : Child :=
  fun _ kw => .ok ((dlookup kw k).getD .vnone)

/-- A Parallel branch: its asyncio completion time (when the task
finishes, relative to fan-out) and its call behavior.  asyncio.gather
returns results in task submission order regardless of completion
times. -/
structure Branch where
  time : Nat
  run : Child

/-- The settled outcomes of all branches, in declared order
(`await asyncio.gather(*tasks, return_exceptions=True)`): every branch
runs to completion and contributes an outcome. -/
def gatherList (bs : List Branch) (args : List Val) (kwargs : Dict) :
    List (Except PyErr Val) :=
  bs.map (fun b => b.run args kwargs)

/-- An exception outcome, as `isinstance(result, Exception)` sees it. -/
def toErr : Except PyErr Val → Option PyErr
  | .error e => some e
  | .ok _ => none

/-- Value of a non-exception outcome. -/
def okOr : Except PyErr Val → Val
  | .ok v => v
  | .error _ => .vnone

/-- Embeds Parallel.forward: gather all branches (every branch settles),
re-raise the first exception found scanning the gathered results (which
are in declared order), else return the tuple of results in declared
order. -/
def Parallel_forward (bs : List Branch) (args : List Val) (kwargs : Dict) :
    Except PyErr Val :=
  match (gatherList bs args kwargs).findSome? toErr with
  | some e => .error e
  | none => .ok (.vtup ((gatherList bs args kwargs).map okOr))

/-- Follows the claim's words, for comparison with Parallel_forward:
the error of the first failing branch in completion order — ascending
completion time, ties broken by declared order. -/
def pickEarlier (a b : Nat × Nat × PyErr) : Nat × Nat × PyErr :=
  if b.1 < a.1 ∨ (b.1 = a.1 ∧ b.2.1 < a.2.1) then b else a

/-- Follows the claim's words: the failing branches with their
completion times and declared indices, reduced to the
completion-order-first one. -/
def completionFirstError (bs : List Branch) (args : List Val) (kwargs : Dict) :
    Option PyErr :=
  let failures := bs.enum.filterMap
    (fun p => (toErr (p.2.run args kwargs)).map (fun e => (p.2.time, p.1, e)))
  match failures with
  | [] => none
  | f :: fs => some (fs.foldl pickEarlier f).2.2

/-
  Retry (src/mai/layers/composite.py).  The child is embedded as a
  function of the attempt index (so an attempt-dependent behavior like
  fail-twice-then-succeed is expressible).  `retryable e` embeds
  `isinstance(e, self.retryable_exceptions)`.  The output records the
  final outcome, the backoff sleeps performed (in seconds), and how
  many times the child was invoked.
-/

/-- Outcome of a Retry.forward run. -/
structure RetryOut where
  res : Except PyErr Val
  sleeps : List Nat
  calls : Nat

/-- The retry loop from attempt `attempt` with `rem` attempts remaining
after it (attempt = max_retries ↔ rem = 0): return on success; a
non-retryable error propagates at once; a retryable error on the last
allowed attempt breaks and is re-raised; otherwise sleep 2^attempt and
continue. -/
def Retry_go (retryable : PyErr → Bool) (child : Nat → Except PyErr Val) :
    Nat → Nat → RetryOut
  | attempt, 0 =>
    match child attempt with
    | .ok v => ⟨.ok v, [], 1⟩
    | .error e => ⟨.error e, [], 1⟩
  | attempt, rem + 1 =>
    match child attempt with
    | .ok v => ⟨.ok v, [], 1⟩
    | .error e =>
      if retryable e then
        let r := Retry_go retryable child (attempt + 1) rem
        ⟨r.res, 2 ^ attempt :: r.sleeps, r.calls + 1⟩
      else ⟨.error e, [], 1⟩

/-- Embeds Retry.forward with the given max_retries: the loop
`for attempt in range(max_retries + 1)`. -/
def Retry_forward (retryable : PyErr → Bool) (max_retries : Nat)
    (child : Nat → Except PyErr Val) : RetryOut :=
  Retry_go retryable child 0 max_retries

/-- The retryable predicate accepting every error. -/
def retryAllErr : PyErr → Bool := fun _ => true

/-- A child failing on attempts 0 and 1 and succeeding from attempt 2
(the fail-twice-then-succeed step of the test suite). -/
def failTwiceChild : Nat → Except PyErr Val :=
  fun n => if n < 2 then .error (.userError "Temporary failure") else .ok (.vint 10)

/-- Metadata of the base Context used in the from_kwargs derivation
scenario: an existing user_id entry (to be overwritten) and an
unrelated entry (to be kept). -/
def baseMeta : Dict := [("user_id", .vstr "old"), ("keep", .vint 1)]

/-- Discriminates the embedded dict values (isinstance(v, dict)). -/
def isDictVal : Val → Bool
  | .vdict _ => true
  | _ => false

/-- Discriminates the embedded Context values (isinstance(v, Context)). -/
def isCtxVal : Val → Bool
  | .vctx _ _ _ _ _ => true
  | _ => false

/-- Entering the same Context instance twice and exiting twice: the
ambient variable state that results (the C10 scenario). -/
def reenterTwice (st0 : Option Ctx) (A : Ctx) : Option Ctx :=
  let e1 := ctx_enter A st0 none
  let e2 := ctx_enter A e1.1 e1.2
  let x1 := ctx_exit e2.1 e2.2
  let x2 := ctx_exit x1.1 x1.2
  x2.1

/-- The two-branch Parallel scenario with both branches failing, where
declared order and completion order disagree: branch 0 finishes at
time 10 with error A, branch 1 at time 1 with error B. -/
def cexBranches : List Branch :=
  [⟨10, failChild (.userError "A")⟩, ⟨1, failChild (.userError "B")⟩]

end PyMai

namespace PyMai

/-- Helper: a list of successful outcomes contains no exception. -/
theorem findSome_toErr_map_ok (vs : List Val) :
    (vs.map Except.ok).findSome? toErr = none := by
  induction vs with
  | nil => rfl
  | cons v vs ih => simp [List.findSome?_cons, toErr, ih]

/-- Helper: extracting values from a list of successful outcomes. -/
theorem okOr_map_ok (vs : List Val) : (vs.map Except.ok).map okOr = vs := by
  induction vs with
  | nil => rfl
  | cons v vs ih => simp [okOr, ih]

/-- C1: the claim says the Context derived for a Module call is layered
over the ambient Context when no explicit ctx key is given.  The code
is not: Module.__call__ goes through Context.set → from_kwargs, which
bases the new Context on a fresh default Context().  With ambient
metadata multiplier = 3 and a forward that multiplies by
current().metadata["multiplier"], the call returns 5, not 15 — the
repository's own test_context_propagation asserts 15.  The forward is
synchronous, as in that test: with an empty merged mapping the
worker-thread dispatch invokes it normally.  The second conjunct shows
the Context derived from the empty merged mapping is the fresh
default, carrying none of the ambient fields. -/
theorem C1_call_context_not_layered_over_ambient :
    Module_call 0 "f1" (some ambientMul3) [] false contextAwareForward [Val.vint 5] []
      = (Except.ok (Val.vint 5), some ambientMul3) ∧
    from_kwargs 0 "f1" (some (Val.vdict [])) = Except.ok ⟨defaultCtx "f1", some []⟩ :=
  ⟨rfl, rfl⟩

/-- C3: Sequential threads the running result through the children in
declared order — the first child receives the original positional
arguments; a tuple result is unpacked as the next child's positional
arguments while any other result (even an ordered list) is passed as
the single positional argument; the keyword mapping is broadcast to
every child; the ×2, ×3, ×4 chain on 5 yields 120; and a child's
error aborts the remaining children (the overall outcome is that error
for every possible continuation). -/
theorem C3_sequential_threading :
    Sequential_forward [mulChild 2, mulChild 3, mulChild 4] [Val.vint 5] []
      = Except.ok (Val.vint 120) ∧
    (∀ args kw, Sequential_forward [argsProbeChild] args kw = Except.ok (Val.vtup args)) ∧
    Sequential_forward [pairChild, argsProbeChild] [] []
      = Except.ok (Val.vtup [Val.vint 2, Val.vint 3]) ∧
    Sequential_forward [pairChild, sumChild] [] [] = Except.ok (Val.vint 5) ∧
    Sequential_forward [listChild, arityChild] [] [] = Except.ok (Val.vint 1) ∧
    (∀ v, Sequential_forward [mulChild 2, kwReadChild "a"] [Val.vint 5] [("a", v)]
      = Except.ok v) ∧
    (∀ e m3, Sequential_forward [mulChild 2, failChild e, m3] [Val.vint 5] []
      = Except.error e) :=
  ⟨rfl, fun _ _ => rfl, rfl, rfl, rfl, fun _ => rfl, fun _ _ => rfl⟩

/-- C5: deriving a Context from an overrides mapping converts a
relative timeout t into the absolute deadline now + t; a declared
field name (retry_count) is applied directly; a remaining non-private
key (user_id) is merged into metadata, overwriting the base Context's
same-named entry in place while unrelated entries persist; the
consumed keys (ctx, timeout, retry_count, user_id) are removed from
the caller-supplied mapping; and the private key _hidden stays in the
mapping and is not copied to metadata. -/
theorem C5_from_kwargs_derivation (now : Rat) (fresh : String) (t : Rat) (v w : Val) :
    from_kwargs now fresh (some (.vdict
        [("ctx", Val.vctx none baseMeta 0 "sid0" none),
         ("timeout", .vrat t),
         ("retry_count", .vint 7),
         ("user_id", v),
         ("_hidden", w)]))
      = Except.ok ⟨⟨some (now + t), [("user_id", v), ("keep", .vint 1)], 7, "sid0", none⟩,
                   some [("_hidden", w)]⟩ :=
  rfl

/-- C6: ambient activation is strictly LIFO: after activating A then B
(distinct instances, shown both through the raw set/reset token pair
and through scoped activation), current() yields B; deactivating B
restores A as current; deactivating A restores the pre-A state; and
with nested scopes the pre-A state is restored for every body outcome,
error included. -/
theorem C6_lifo_activation (st0 : Option Ctx) (A B : Ctx) (r0 : Except PyErr Val) :
    (cv_set st0 A).1 = some A ∧
    (cv_set (cv_set st0 A).1 B).1 = some B ∧
    (ctx_get "g" (cv_set (cv_set st0 A).1 B).1).1 = B ∧
    cv_reset (cv_set (cv_set st0 A).1 B).1 (cv_set (cv_set st0 A).1 B).2
      = (cv_set st0 A).1 ∧
    (ctx_get "g" (cv_set st0 A).1).1 = A ∧
    cv_reset (cv_set st0 A).1 (cv_set st0 A).2 = st0 ∧
    (withScope A none st0 (fun s1 =>
        let w := withScope B none s1 (fun s2 => (r0, s2))
        (w.1, w.2.1))).2.1 = st0 :=
  ⟨rfl, rfl, rfl, rfl, rfl, rfl, rfl⟩

/-- C10: entering the same Context instance twice overwrites the outer
restoration token in the single per-instance _token slot, so after
both scopes exit that Context is still ambient and the pre-entry state
is not restored (whenever it differed). -/
theorem C10_reenter_same_instance (st0 : Option Ctx) (A : Ctx) :
    reenterTwice st0 A = some A ∧ (st0 ≠ some A → reenterTwice st0 A ≠ st0) := by
  refine ⟨rfl, fun h hh => h ?_⟩
  have : reenterTwice st0 A = some A := rfl
  rw [this] at hh
  exact hh.symm

/-- C10, witnessed at a concrete pre-entry state. -/
theorem C10_reenter_same_instance_witness :
    reenterTwice none (defaultCtx "a") = some (defaultCtx "a") ∧
    reenterTwice none (defaultCtx "a") ≠ none :=
  ⟨(C10_reenter_same_instance none (defaultCtx "a")).1,
   (C10_reenter_same_instance none (defaultCtx "a")).2 (by simp)⟩

/-- Helper: the retry loop under an always-failing, always-retryable
child performs every remaining attempt, sleeping 2 ^ attempt before
each retry, and invokes the child once per attempt. -/
theorem retry_go_const_fail (e : PyErr) :
    ∀ rem attempt, Retry_go retryAllErr (fun _ => .error e) attempt rem
      = ⟨.error e, (List.range rem).map (fun i => 2 ^ (attempt + i)), rem + 1⟩ := by
  intro rem
  induction rem with
  | zero => intro attempt; rfl
  | succ n ih =>
    intro attempt
    have hl : (List.range (n + 1)).map (fun i => 2 ^ (attempt + i))
        = 2 ^ attempt :: (List.range n).map (fun i => 2 ^ (attempt + 1 + i)) := by
      rw [List.range_succ_eq_map, List.map_cons, List.map_map]
      refine List.cons_eq_cons.mpr ⟨by rw [Nat.add_zero], ?_⟩
      refine List.map_congr_left ?_
      intro i _
      simp only [Function.comp]
      congr 1
      omega
    simp [Retry_go, retryAllErr, ih (attempt + 1), hl]

/-- Helper: the retry loop invokes the child at most once per allowed
attempt. -/
theorem retry_go_calls_le (r : PyErr → Bool) (child : Nat → Except PyErr Val) :
    ∀ rem attempt, (Retry_go r child attempt rem).calls ≤ rem + 1 := by
  intro rem
  induction rem with
  | zero => intro attempt; cases h : child attempt <;> simp [Retry_go, h]
  | succ n ih =>
    intro attempt
    cases h : child attempt with
    | ok v => simp [Retry_go, h]
    | error e =>
      by_cases hr : r e
      · have := ih (attempt + 1)
        simp only [Retry_go, h, hr, if_true]
        omega
      · simp [Retry_go, h, hr]

/-- C4: Retry returns the child's result immediately on first success;
a failure whose kind is not retryable propagates at once with no
further attempts and no backoff sleep; in the fail-twice-then-succeed
scenario with max_retries = 3 the result is the success value after 3
invocations with backoff sleeps of 1s then 2s; when every attempt
fails retryably, the loop performs max_retries + 1 invocations with
sleeps 2^0, 2^1, ... and fails with the last attempt's error —
concretely, with per-attempt errors the error surfaced is the final
attempt's, not an earlier one; and in general the child is invoked at
most max_retries + 1 times. -/
theorem C4_retry_backoff :
    (∀ r mr child v, child 0 = Except.ok v →
        Retry_forward r mr child = ⟨Except.ok v, [], 1⟩) ∧
    (∀ r mr child e, child 0 = Except.error e → r e = false →
        Retry_forward r mr child = ⟨Except.error e, [], 1⟩) ∧
    Retry_forward retryAllErr 3 failTwiceChild = ⟨Except.ok (Val.vint 10), [1, 2], 3⟩ ∧
    (∀ e mr, Retry_forward retryAllErr mr (fun _ => Except.error e)
        = ⟨Except.error e, (List.range mr).map (fun i => 2 ^ i), mr + 1⟩) ∧
    Retry_forward retryAllErr 2
        (fun n => Except.error (if n = 2 then PyErr.userError "last" else PyErr.userError "early"))
      = ⟨Except.error (PyErr.userError "last"), [1, 2], 3⟩ ∧
    (∀ r mr child, (Retry_forward r mr child).calls ≤ mr + 1) := by
  refine ⟨?_, ?_, rfl, ?_, rfl, ?_⟩
  · intro r mr child v h
    cases mr <;> simp [Retry_forward, Retry_go, h]
  · intro r mr child e h hr
    cases mr <;> simp [Retry_forward, Retry_go, h, hr]
  · intro e mr
    have h := retry_go_const_fail e mr 0
    simpa [Retry_forward] using h
  · intro r mr child
    exact retry_go_calls_le r child mr 0

/-- C4, witnessed: an immediately successful child stops after one
invocation, and a non-retryable failure is terminal at once. -/
theorem C4_retry_backoff_witness :
    Retry_forward retryAllErr 2 (fun _ => Except.ok (Val.vint 7))
      = ⟨Except.ok (Val.vint 7), [], 1⟩ ∧
    Retry_forward (fun _ => false) 2 (fun _ => Except.error (PyErr.userError "x"))
      = ⟨Except.error (PyErr.userError "x"), [], 1⟩ :=
  ⟨C4_retry_backoff.1 retryAllErr 2 (fun _ => Except.ok (Val.vint 7)) (Val.vint 7) rfl,
   C4_retry_backoff.2.1 (fun _ => false) 2 (fun _ => Except.error (PyErr.userError "x"))
     (PyErr.userError "x") rfl rfl⟩

/-- C2 counterexample: two failing branches where completion order
(branch 1 first, at time 1) disagrees with declared order (branch 0
first).  Parallel.forward raises branch 0's error A — the first
failing branch in declared order — while the claim says the first in
completion order, which is branch 1's distinct error B. -/
theorem C2_counterexample :
    Parallel_forward cexBranches [] [] = Except.error (PyErr.userError "A") ∧
    completionFirstError cexBranches [] [] = some (PyErr.userError "B") ∧
    PyErr.userError "A" ≠ PyErr.userError "B" :=
  ⟨rfl, rfl, by decide⟩

/-- C2 (amended): when a branch fails, Parallel fails with the error of
the first failing branch in declared child order — every branch still
settles and contributes its outcome to the gathered list — and the
outcome never depends on the branches' completion times; in the
one-failing-branch scenario of the spec the overall call fails with
that branch's error. -/
theorem C2_parallel_error_declared_order :
    (∀ bs args kw e, (gatherList bs args kw).findSome? toErr = some e →
        Parallel_forward bs args kw = Except.error e) ∧
    (∀ bs args kw (f : Branch → Nat),
        Parallel_forward (bs.map (fun b => ⟨f b, b.run⟩)) args kw
        = Parallel_forward bs args kw) ∧
    Parallel_forward
        [⟨0, mulChild 2⟩, ⟨0, failChild (PyErr.valueError "Test error")⟩, ⟨0, mulChild 4⟩]
        [Val.vint 5] []
      = Except.error (PyErr.valueError "Test error") := by
  refine ⟨?_, ?_, rfl⟩
  · intro bs args kw e h
    simp only [Parallel_forward]
    rw [h]
  · intro bs args kw f
    have hg : gatherList (List.map (fun b => (⟨f b, b.run⟩ : Branch)) bs) args kw
        = gatherList bs args kw := by
      simp only [gatherList, List.map_map]
      rfl
    simp only [Parallel_forward, hg]

/-- C2 (amended), witnessed on a single failing branch. -/
theorem C2_parallel_error_declared_order_witness :
    Parallel_forward [⟨0, failChild (PyErr.userError "w")⟩] [] []
      = Except.error (PyErr.userError "w") :=
  C2_parallel_error_declared_order.1 [⟨0, failChild (PyErr.userError "w")⟩] [] []
    (PyErr.userError "w") rfl

/-- C8: an all-success Parallel invocation returns the tuple of the
branch results in declared child order: concretely ×2, ×3, ×4 on 5
(with unequal completion times) yields (10, 15, 20); the outcome never
depends on completion times (an artificial delay changes nothing); and
in general when the gathered outcomes are successes with values vs,
the result is the tuple of vs in declared order. -/
theorem C8_parallel_declared_order_results :
    Parallel_forward [⟨5, mulChild 2⟩, ⟨1, mulChild 3⟩, ⟨3, mulChild 4⟩] [Val.vint 5] []
      = Except.ok (Val.vtup [Val.vint 10, Val.vint 15, Val.vint 20]) ∧
    (∀ bs args kw (f : Branch → Nat),
        Parallel_forward (bs.map (fun b => ⟨f b, b.run⟩)) args kw
        = Parallel_forward bs args kw) ∧
    (∀ bs args kw vs, gatherList bs args kw = vs.map Except.ok →
        Parallel_forward bs args kw = Except.ok (Val.vtup vs)) := by
  refine ⟨rfl, ?_, ?_⟩
  · intro bs args kw f
    have hg : gatherList (List.map (fun b => (⟨f b, b.run⟩ : Branch)) bs) args kw
        = gatherList bs args kw := by
      simp only [gatherList, List.map_map]
      rfl
    simp only [Parallel_forward, hg]
  · intro bs args kw vs h
    simp only [Parallel_forward]
    rw [h, findSome_toErr_map_ok, okOr_map_ok]

/-- C8, witnessed on a single successful branch. -/
theorem C8_parallel_declared_order_results_witness :
    Parallel_forward [⟨0, mulChild 2⟩] [Val.vint 1] []
      = Except.ok (Val.vtup [Val.vint 2]) :=
  C8_parallel_declared_order_results.2.2 [⟨0, mulChild 2⟩] [Val.vint 1] []
    [Val.vint 2] rfl

/-- C7 counterexample: supplying None under the ctx key does not raise
a TypeError — from_kwargs pops it with default None and then treats it
as absent, deriving from a fresh default base Context. -/
theorem C7_counterexample :
    from_kwargs 0 "f7" (some (.vdict [("ctx", Val.vnone)]))
      = Except.ok ⟨defaultCtx "f7", some []⟩ :=
  rfl

/-- C7 (amended): constructing with a deadline farther than the
10-year threshold from the monotonic clock fails validation while
monotonic now + 30 succeeds; deriving with both deadline and timeout
present fails with a ValueError; a non-mapping, non-absent derivation
source fails with a TypeError; and a non-Context value other than
None under the ctx key fails with a TypeError. -/
theorem C7_error_modes (now d : Rat) (fresh : String) (src rest : Dict) (v : Val) :
    (wallThreshold < pyAbs (d - now) →
        Context_init now (some d) [] 0 "s" none
          = Except.error (PyErr.valueError "deadline must be monotonic time")) ∧
    Context_init now (some (now + 30)) [] 0 "s" none
      = Except.ok ⟨some (now + 30), [], 0, "s", none⟩ ∧
    (dcontains src "deadline" = true → dcontains src "timeout" = true →
        from_kwargs now fresh (some (.vdict src))
          = Except.error
              (PyErr.valueError "deadline and timeout cannot be set at the same time")) ∧
    (isDictVal v = false →
        from_kwargs now fresh (some v)
          = Except.error (PyErr.typeError "from_kwargs expects a dict or None")) ∧
    (isCtxVal v = false → v ≠ Val.vnone →
        (dcontains (("ctx", v) :: rest) "deadline"
          && dcontains (("ctx", v) :: rest) "timeout") = false →
        from_kwargs now fresh (some (.vdict (("ctx", v) :: rest)))
          = Except.error (PyErr.typeError "ctx must be a Context object")) := by
  refine ⟨?_, ?_, ?_, ?_, ?_⟩
  · intro h
    simp [Context_init, validate_deadline, _is_wall_clock_time, h]
  · have h30 : (now + 30) - now = (30 : Rat) := by ring
    have hlt : ¬ ((wallThreshold : Rat) < pyAbs 30) := by
      norm_num [pyAbs, wallThreshold]
    simp [Context_init, validate_deadline, _is_wall_clock_time, h30, hlt]
  · intro h1 h2
    simp [from_kwargs, h1, h2]
  · intro h
    cases v <;> simp_all [from_kwargs, isDictVal]
  · intro hc hn hdt
    cases v with
    | vnone => exact absurd rfl hn
    | vctx a b c d e => simp [isCtxVal] at hc
    | vint n => simp [from_kwargs, hdt, dpop]
    | vrat q => simp [from_kwargs, hdt, dpop]
    | vstr s => simp [from_kwargs, hdt, dpop]
    | vbool b => simp [from_kwargs, hdt, dpop]
    | vtup l => simp [from_kwargs, hdt, dpop]
    | vlist l => simp [from_kwargs, hdt, dpop]
    | vdict dd => simp [from_kwargs, hdt, dpop]

/-- C7 (amended), witnessed at concrete malformed inputs. -/
theorem C7_error_modes_witness :
    Context_init 0 (some 1000000000) [] 0 "s" none
      = Except.error (PyErr.valueError "deadline must be monotonic time") ∧
    from_kwargs 0 "f" (some (.vdict [("deadline", Val.vrat 1), ("timeout", Val.vrat 1)]))
      = Except.error
          (PyErr.valueError "deadline and timeout cannot be set at the same time") ∧
    from_kwargs 0 "f" (some (Val.vint 3))
      = Except.error (PyErr.typeError "from_kwargs expects a dict or None") ∧
    from_kwargs 0 "f" (some (.vdict [("ctx", Val.vint 1)]))
      = Except.error (PyErr.typeError "ctx must be a Context object") :=
  ⟨(C7_error_modes 0 1000000000 "f" [] [] Val.vnone).1 (by norm_num [pyAbs, wallThreshold]),
   (C7_error_modes 0 0 "f" [("deadline", Val.vrat 1), ("timeout", Val.vrat 1)] [] Val.vnone).2.2.1
     rfl rfl,
   (C7_error_modes 0 0 "f" [] [] (Val.vint 3)).2.2.2.1 rfl,
   (C7_error_modes 0 0 "f" [] [] (Val.vint 1)).2.2.2.2 rfl (by intro h; cases h) rfl⟩

/-- C9: the claim says that for every Unit invocation the processing
function receives the original positional arguments plus the full
merged keyword mapping.  That holds only on the asynchronous dispatch
branch: a synchronous forward goes through
anyio.to_thread.run_sync(fn, *args, **kwargs), which accepts no
arbitrary keyword arguments, so the Module class docstring's own
example — a sync forward configured with with_(timeout=10) and
awaited — raises TypeError before forward ever runs (first conjunct;
the finally-reset still restores the ambient state).  The second
conjunct shows the identical configuration on an async forward does
deliver the full merged mapping, the derivation-consumed timeout key
included, with the derived Context ambient; the third shows a sync
forward with an empty merged mapping runs but receives no keyword
mapping at all. -/
theorem C9_sync_dispatch_drops_kwargs (st : Option Ctx) (args : List Val) :
    Module_call 0 "f9" st [("timeout", Val.vrat 10)] false probeForward args []
      = (Except.error (PyErr.typeError "run_sync got an unexpected keyword argument"),
         st) ∧
    Module_call 0 "f9" st [("timeout", Val.vrat 10)] true probeForward args []
      = (Except.ok (Val.vtup [Val.vtup args,
          Val.vdict [("timeout", Val.vrat 10)],
          Val.vctx (some ((0 : Rat) + 10)) [] 0 "f9" none]), st) ∧
    Module_call 0 "f9" st [] false probeForward args []
      = (Except.ok (Val.vtup [Val.vtup args, Val.vdict [],
          (defaultCtx "f9").toVal]), st) :=
  ⟨rfl, rfl, rfl⟩

end PyMai
